import Mathlib

/-
Verification of the dashboard/widget management service
(spaceone dashboard repository).

The development shallowly embeds the service layer
(`domain_dashboard_service.py`, `private_widget_service.py`,
`public_widget_service.py`, `private_data_table_service.py`,
`public_data_table_service.py`) over an explicit store state.
The manager classes (`DomainDashboardManager`,
`DomainDashboardVersionManager`, widget / data-table managers) are not
part of the sources, so their persistence operations are modelled from
the specification and marked as such in their doc comments.

Field values (layout lists, option dicts, schema dicts) only ever flow
through Python `==` comparison and truthiness tests in the embedded
code, so they are modelled by a concrete type with decidable equality
and an empty (falsy) element.
-/

/-- Field values carried by the versioned dashboard fields (layout lists,
option and schema dicts). The embedded code only compares such values
for equality and tests Python truthiness, which is captured by a list
with decidable equality whose empty list is the falsy value. -/
abbrev Val := List Nat

/-- Python truthiness of a collection value: empty collections are falsy. -/
def Val.truthy (v : Val) : Bool := !v.isEmpty

/-- Embedding of the Python walrus pattern `if x := params.get(key):` -
yields the value only when the key is present and its value is truthy
(non-empty). -/
def truthyGet (o : Option Val) : Option Val :=
  match o with
  | some v => if v.truthy then some v else none
  | none => none

/-- Ownership scope assigned by `DomainDashboardService.create`. -/
inductive Scope where
  | USER
  | DOMAIN
deriving DecidableEq, Repr

/-- Errors raised by the embedded service methods
(from `spaceone.dashboard.error`). -/
inductive Err where
  | notFound
  | invalidUserId (user_id tnx_user_id : String)
  | latestVersion (version : Nat)
  | notSupportedVersion (version : String)
  | invalidParameter (key : String)
deriving DecidableEq, Repr

/-- A stored domain-dashboard record (the persisted fields that the
embedded service methods read or write). -/
structure DomainDashboard where
  domain_dashboard_id : String
  name : String
  version : Nat
  layouts : Val
  dashboard_options : Val
  dashboard_options_schema : Val
  settings : Val
  labels : Val
  tags : Val
  scope : Scope
  user_id : Option String
  domain_id : String
deriving DecidableEq, Repr

/-- A stored domain-dashboard version snapshot: parent dashboard id,
version number and the snapshot of the three versioned fields. -/
structure DomainDashboardVersion where
  domain_dashboard_id : String
  version : Nat
  layouts : Val
  dashboard_options : Val
  dashboard_options_schema : Val
  domain_id : String
deriving DecidableEq, Repr

/-- The dashboard store and the version store. -/
structure State where
  dashboards : List DomainDashboard
  versions : List DomainDashboardVersion
deriving DecidableEq, Repr

/-- Parameters of `DomainDashboardService.update` (and, after the service
injects the snapshot fields, of `revert_version`). A field is `none`
exactly when the key is absent from the params dict. -/
structure UpdateParams where
  domain_dashboard_id : String
  domain_id : String
  name : Option String := none
  layouts : Option Val := none
  dashboard_options : Option Val := none
  settings : Option Val := none
  dashboard_options_schema : Option Val := none
  labels : Option Val := none
  tags : Option Val := none
deriving DecidableEq, Repr

/-- Embedding of `DomainDashboardService._check_version_change`
(domain_dashboard_service.py lines 284-301). The outer guard is
`any(key for key in params if key in version_change_keys)` (key
presence); the chain `if layouts_from_params := params.get('layouts'):
... elif ... elif ... else: return False` short-circuits on the first
present-and-truthy field in the order layouts, dashboard_options,
dashboard_options_schema and compares only that field; every fall
through path returns a falsy value (`None` or `False`), modelled as
`false`. -/
def check_version_change (vo : DomainDashboard) (params : UpdateParams) : Bool :=
  if params.layouts.isSome || params.dashboard_options.isSome ||
      params.dashboard_options_schema.isSome then
    match truthyGet params.layouts with
    | some layouts_from_params => decide (vo.layouts ≠ layouts_from_params)
    | none =>
      match truthyGet params.dashboard_options with
      | some options_from_params => decide (vo.dashboard_options ≠ options_from_params)
      | none =>
        match truthyGet params.dashboard_options_schema with
        | some schema_from_params => decide (schema_from_params ≠ vo.dashboard_options_schema)
        | none => false
  else
    false

/-- Modelled from the spec: `DomainDashboardManager.get_domain_dashboard`
(manager code absent from the sources): a get-by-id read scoped by
domain id. -/
def get_domain_dashboard (s : State) (id domain_id : String) : Option DomainDashboard :=
  s.dashboards.find? (fun d => d.domain_dashboard_id == id && d.domain_id == domain_id)

/-- Modelled from the spec: `DomainDashboardManager.increase_version`
(manager code absent from the sources): increments the dashboard's
monotonic version counter. -/
def increase_version (vo : DomainDashboard) : DomainDashboard :=
  { vo with version := vo.version + 1 }

/-- Replace the stored record(s) with the given dashboard's id and
domain by the given record (persistence of an updated value object). -/
def State.setDashboard (s : State) (vo : DomainDashboard) : State :=
  { s with
    dashboards := s.dashboards.map
      (fun d =>
        if d.domain_dashboard_id == vo.domain_dashboard_id && d.domain_id == vo.domain_id then
          vo
        else d) }

/-- The version snapshot taken from a dashboard value object: its current
version number and its current versioned field values. -/
def snapshotOf (vo : DomainDashboard) : DomainDashboardVersion :=
  { domain_dashboard_id := vo.domain_dashboard_id
    version := vo.version
    layouts := vo.layouts
    dashboard_options := vo.dashboard_options
    dashboard_options_schema := vo.dashboard_options_schema
    domain_id := vo.domain_id }

/-- Modelled from the spec:
`DomainDashboardVersionManager.create_version_by_domain_dashboard_vo`
(manager code absent from the sources): stores a new immutable snapshot
of the dashboard's current versioned fields under its current version
number. -/
def create_version_by_domain_dashboard_vo (s : State) (vo : DomainDashboard) : State :=
  { s with versions := s.versions ++ [snapshotOf vo] }

/-- Apply the updatable fields present in the params dict to a dashboard
value object (absent keys leave the stored value untouched). -/
def applyParams (params : UpdateParams) (vo : DomainDashboard) : DomainDashboard :=
  { vo with
    name := params.name.getD vo.name
    layouts := params.layouts.getD vo.layouts
    dashboard_options := params.dashboard_options.getD vo.dashboard_options
    settings := params.settings.getD vo.settings
    dashboard_options_schema := params.dashboard_options_schema.getD vo.dashboard_options_schema
    labels := params.labels.getD vo.labels
    tags := params.tags.getD vo.tags }

/-- Modelled from the spec:
`DomainDashboardManager.update_domain_dashboard_by_vo` (manager code
absent from the sources): applies the updatable fields of the params to
the value object and persists it, returning the updated record. -/
def update_domain_dashboard_by_vo (s : State) (params : UpdateParams)
    (vo : DomainDashboard) : State × DomainDashboard :=
  let vo' := applyParams params vo
  (s.setDashboard vo', vo')

/-- Embedding of `DomainDashboardService.update`
(domain_dashboard_service.py lines 62-95): loads the dashboard, runs
`_check_version_change`; on a change it first increments the version
counter, then snapshots the (still pre-update) field values, and in
every case finally applies the params via
`update_domain_dashboard_by_vo`. -/
def DomainDashboardService.update (s : State) (params : UpdateParams) :
    Except Err (State × DomainDashboard) :=
  match get_domain_dashboard s params.domain_dashboard_id params.domain_id with
  | none => .error .notFound
  | some vo =>
    if check_version_change vo params then
      let vo' := increase_version vo
      let s' := s.setDashboard vo'
      let s'' := create_version_by_domain_dashboard_vo s' vo'
      .ok (update_domain_dashboard_by_vo s'' params vo')
    else
      .ok (update_domain_dashboard_by_vo s params vo)

/-- Parameters of `DomainDashboardService.create`. A field is `none`
exactly when the key is absent from the params dict. -/
structure CreateParams where
  name : String
  domain_id : String
  user_id : Option String := none
  layouts : Option Val := none
  dashboard_options : Option Val := none
  settings : Option Val := none
  dashboard_options_schema : Option Val := none
  labels : Option Val := none
  tags : Option Val := none
deriving DecidableEq, Repr

/-- Modelled from the spec:
`DomainDashboardManager.create_domain_dashboard` builds the persisted
record (manager code absent from the sources): the version counter
starts at 1 and absent optional fields take the model defaults (empty
collections). -/
def newDashboardFromParams (params : CreateParams) (scope : Scope)
    (newId : String) : DomainDashboard :=
  { domain_dashboard_id := newId
    name := params.name
    version := 1
    layouts := params.layouts.getD []
    dashboard_options := params.dashboard_options.getD []
    dashboard_options_schema := params.dashboard_options_schema.getD []
    settings := params.settings.getD []
    labels := params.labels.getD []
    tags := params.tags.getD []
    scope := scope
    user_id := params.user_id
    domain_id := params.domain_id }

/-- Embedding of `DomainDashboardService.create`
(domain_dashboard_service.py lines 22-60): a supplied user id must equal
the transaction's user id (otherwise `ERROR_INVALID_USER_ID`) and
selects scope `USER`; with no user id the scope is `DOMAIN`. The
dashboard is persisted, and a version-1 snapshot is stored exactly when
all three version keys are present in the params
(`set(version_keys) <= params.keys()`). -/
def DomainDashboardService.create (s : State) (params : CreateParams)
    (tnx_user_id : String) (newId : String) : Except Err (State × DomainDashboard) :=
  let afterScope : Except Err Scope :=
    match params.user_id with
    | some user_id =>
      if user_id ≠ tnx_user_id then .error (.invalidUserId user_id tnx_user_id)
      else .ok .USER
    | none => .ok .DOMAIN
  match afterScope with
  | .error e => .error e
  | .ok scope =>
    let vo := newDashboardFromParams params scope newId
    let s' : State := { s with dashboards := s.dashboards ++ [vo] }
    if params.layouts.isSome && params.dashboard_options.isSome &&
        params.dashboard_options_schema.isSome then
      .ok (create_version_by_domain_dashboard_vo s' vo, vo)
    else
      .ok (s', vo)

/-- Whether a stored version record matches a dashboard id, version
number and domain id. -/
def versionMatches (id : String) (version : Nat) (domain_id : String)
    (v : DomainDashboardVersion) : Bool :=
  v.domain_dashboard_id == id && v.version == version && v.domain_id == domain_id

/-- Modelled from the spec: `DomainDashboardVersionManager.get_version`
(manager code absent from the sources): a get-by-number read of one
version record. -/
def version_mgr_get_version (s : State) (id : String) (version : Nat)
    (domain_id : String) : Option DomainDashboardVersion :=
  s.versions.find? (versionMatches id version domain_id)

/-- Modelled from the spec: `DomainDashboardVersionManager.delete_version`
(manager code absent from the sources): versions are deleted
individually by version number; a missing record is a not-found error,
otherwise the matching record is removed from the version store. -/
def version_mgr_delete_version (s : State) (id : String) (version : Nat)
    (domain_id : String) : Except Err State :=
  if s.versions.any (versionMatches id version domain_id) then
    .ok { s with versions := s.versions.filter (fun v => !(versionMatches id version domain_id v)) }
  else
    .error .notFound

/-- Embedding of `DomainDashboardService.delete_version`
(domain_dashboard_service.py lines 133-158): loads the dashboard, raises
`ERROR_LATEST_VERSION` when the requested version equals the current
version counter, and otherwise delegates the deletion to the version
manager. -/
def DomainDashboardService.deleteVersion (s : State) (id : String)
    (version : Nat) (domain_id : String) : Except Err State :=
  match get_domain_dashboard s id domain_id with
  | none => .error .notFound
  | some vo =>
    if vo.version = version then .error (.latestVersion version)
    else version_mgr_delete_version s id version domain_id

/-- Embedding of `DomainDashboardService.revert_version`
(domain_dashboard_service.py lines 160-188): loads the dashboard and the
target version snapshot, copies the snapshot's three versioned fields
into the params, and applies them directly via
`update_domain_dashboard_by_vo` - without calling
`_check_version_change`, `increase_version` or the version manager's
snapshot creation. -/
def DomainDashboardService.revertVersion (s : State) (params : UpdateParams)
    (version : Nat) : Except Err (State × DomainDashboard) :=
  match get_domain_dashboard s params.domain_dashboard_id params.domain_id with
  | none => .error .notFound
  | some vo =>
    match version_mgr_get_version s params.domain_dashboard_id version params.domain_id with
    | none => .error .notFound
    | some version_vo =>
      let params' : UpdateParams :=
        { params with
          layouts := some version_vo.layouts
          dashboard_options := some version_vo.dashboard_options
          dashboard_options_schema := some version_vo.dashboard_options_schema }
      .ok (update_domain_dashboard_by_vo s params' vo)

/-- The data_type tag of a data table (model choices ADDED /
TRANSFORMED). -/
inductive DataType where
  | ADDED
  | TRANSFORMED
deriving DecidableEq, Repr

/-- A stored private dashboard record: the widget create path reads its
schema version string and its ownership scope (domain id, user id). -/
structure PrivateDashboard where
  dashboard_id : String
  version : String
  domain_id : String
  user_id : String
deriving DecidableEq, Repr

/-- A stored private widget record. -/
structure PrivateWidget where
  widget_id : String
  name : String
  dashboard_id : String
  data_table_id : Option String
  options : Val
  tags : Val
  domain_id : String
  user_id : String
deriving DecidableEq, Repr

/-- A stored private data table record. -/
structure PrivateDataTable where
  data_table_id : String
  data_type : DataType
  source_type : Option String
  operator : Option String
  options : Val
  widget_id : String
  domain_id : String
  user_id : String
deriving DecidableEq, Repr

/-- The private stores: dashboards, widgets, data tables. -/
structure PrivState where
  dashboards : List PrivateDashboard
  widgets : List PrivateWidget
  dataTables : List PrivateDataTable
deriving DecidableEq, Repr

/-- Modelled from the spec:
`PrivateDashboardManager.get_private_dashboard` (manager code absent
from the sources): a get-by-id read gated by the owning domain id and
user id. -/
def get_private_dashboard (s : PrivState) (id domain_id user_id : String) :
    Option PrivateDashboard :=
  s.dashboards.find?
    (fun d => d.dashboard_id == id && d.domain_id == domain_id && d.user_id == user_id)

/-- Modelled from the spec: `PrivateWidgetManager.get_private_widget`
(manager code absent from the sources): a get-by-id read gated by the
owning domain id and user id. -/
def get_private_widget (s : PrivState) (id domain_id user_id : String) :
    Option PrivateWidget :=
  s.widgets.find?
    (fun w => w.widget_id == id && w.domain_id == domain_id && w.user_id == user_id)

/-- Modelled from the spec:
`PrivateDataTableManager.get_private_data_table` (manager code absent
from the sources): a get-by-id read gated by the owning domain id and
user id. -/
def get_private_data_table (s : PrivState) (id domain_id user_id : String) :
    Option PrivateDataTable :=
  s.dataTables.find?
    (fun t => t.data_table_id == id && t.domain_id == domain_id && t.user_id == user_id)

/-- Parameters of `PrivateWidgetService.create`. -/
structure PrivateWidgetCreateParams where
  dashboard_id : String
  name : String
  options : Val
  tags : Val
  user_id : String
  domain_id : String
deriving DecidableEq, Repr

/-- Modelled from the spec: `PrivateWidgetManager.create_private_widget`
builds the persisted widget record (manager code absent from the
sources); a freshly created widget has no bound data table. -/
def newPrivateWidget (p : PrivateWidgetCreateParams) (newId : String) : PrivateWidget :=
  { widget_id := newId
    name := p.name
    dashboard_id := p.dashboard_id
    data_table_id := none
    options := p.options
    tags := p.tags
    domain_id := p.domain_id
    user_id := p.user_id }

/-- Embedding of `PrivateWidgetService.create`
(private_widget_service.py lines 37-76): requires the parent dashboard
to exist under the caller's domain and user id, raises
`ERROR_NOT_SUPPORTED_VERSION` when the dashboard's schema version is
"1.0", and otherwise persists the widget. -/
def PrivateWidgetService.create (s : PrivState) (p : PrivateWidgetCreateParams)
    (newId : String) : Except Err (PrivState × PrivateWidget) :=
  match get_private_dashboard s p.dashboard_id p.domain_id p.user_id with
  | none => .error .notFound
  | some pri_dashboard_vo =>
    if pri_dashboard_vo.version = "1.0" then
      .error (.notSupportedVersion pri_dashboard_vo.version)
    else
      let w := newPrivateWidget p newId
      .ok ({ s with widgets := s.widgets ++ [w] }, w)

/-- Parameters of `PrivateWidgetService.update`. A field is `none`
exactly when it was not set in the request. -/
structure PrivateWidgetUpdateParams where
  widget_id : String
  name : Option String := none
  options : Option Val := none
  data_table_id : Option String := none
  tags : Option Val := none
  user_id : String
  domain_id : String
deriving DecidableEq, Repr

/-- Apply the set fields of a widget update request to a widget value
object (unset fields leave the stored value untouched). -/
def applyWidgetParams (p : PrivateWidgetUpdateParams) (w : PrivateWidget) : PrivateWidget :=
  { w with
    name := p.name.getD w.name
    options := p.options.getD w.options
    data_table_id :=
      match p.data_table_id with
      | some d => some d
      | none => w.data_table_id
    tags := p.tags.getD w.tags }

/-- Replace the stored widget record(s) with the given widget's id by the
given record (persistence of an updated value object). -/
def PrivState.setWidget (s : PrivState) (w : PrivateWidget) : PrivState :=
  { s with
    widgets := s.widgets.map (fun x => if x.widget_id == w.widget_id then w else x) }

/-- Embedding of `PrivateWidgetService.update`
(private_widget_service.py lines 78-130): loads the widget; when a data
table id is supplied, loads that data table and raises
`ERROR_INVALID_PARAMETER` unless its parent widget id equals the widget
being updated; then applies the set fields via
`update_private_widget_by_vo` (modelled from the spec, manager code
absent from the sources). -/
def PrivateWidgetService.update (s : PrivState) (p : PrivateWidgetUpdateParams) :
    Except Err (PrivState × PrivateWidget) :=
  match get_private_widget s p.widget_id p.domain_id p.user_id with
  | none => .error .notFound
  | some pri_widget_vo =>
    match p.data_table_id with
    | some dtid =>
      match get_private_data_table s dtid p.domain_id p.user_id with
      | none => .error .notFound
      | some pri_data_table_vo =>
        if pri_data_table_vo.widget_id ≠ p.widget_id then
          .error (.invalidParameter "data_table_id")
        else
          let w' := applyWidgetParams p pri_widget_vo
          .ok (s.setWidget w', w')
    | none =>
      let w' := applyWidgetParams p pri_widget_vo
      .ok (s.setWidget w', w')

/-- A stored public dashboard record: the widget create path reads its
schema version string and its ownership scope (domain id, workspace
id). Project-level scoping (`user_projects`) does not influence the
embedded claims and is not modelled. -/
structure PublicDashboard where
  dashboard_id : String
  version : String
  domain_id : String
  workspace_id : String
deriving DecidableEq, Repr

/-- A stored public widget record. -/
structure PublicWidget where
  widget_id : String
  name : String
  dashboard_id : String
  data_table_id : Option String
  options : Val
  tags : Val
  domain_id : String
  workspace_id : String
deriving DecidableEq, Repr

/-- A stored public data table record. -/
structure PublicDataTable where
  data_table_id : String
  data_type : DataType
  source_type : Option String
  operator : Option String
  options : Val
  widget_id : String
  domain_id : String
  workspace_id : String
deriving DecidableEq, Repr

/-- The public stores: dashboards, widgets, data tables. -/
structure PubState where
  dashboards : List PublicDashboard
  widgets : List PublicWidget
  dataTables : List PublicDataTable
deriving DecidableEq, Repr

/-- Modelled from the spec:
`PublicDashboardManager.get_public_dashboard` (manager code absent from
the sources): a get-by-id read gated by the owning domain id and
workspace id. -/
def get_public_dashboard (s : PubState) (id domain_id workspace_id : String) :
    Option PublicDashboard :=
  s.dashboards.find?
    (fun d => d.dashboard_id == id && d.domain_id == domain_id &&
      d.workspace_id == workspace_id)

/-- Modelled from the spec: `PublicWidgetManager.get_public_widget`
(manager code absent from the sources): a get-by-id read gated by the
owning domain id and workspace id. -/
def get_public_widget (s : PubState) (id domain_id workspace_id : String) :
    Option PublicWidget :=
  s.widgets.find?
    (fun w => w.widget_id == id && w.domain_id == domain_id &&
      w.workspace_id == workspace_id)

/-- Parameters of `PublicWidgetService.create`. -/
structure PublicWidgetCreateParams where
  dashboard_id : String
  name : String
  options : Val
  tags : Val
  workspace_id : String
  domain_id : String
deriving DecidableEq, Repr

/-- Modelled from the spec: `PublicWidgetManager.create_public_widget`
builds the persisted widget record (manager code absent from the
sources). -/
def newPublicWidget (p : PublicWidgetCreateParams) (newId : String) : PublicWidget :=
  { widget_id := newId
    name := p.name
    dashboard_id := p.dashboard_id
    data_table_id := none
    options := p.options
    tags := p.tags
    domain_id := p.domain_id
    workspace_id := p.workspace_id }

/-- Embedding of `PublicWidgetService.create`
(public_widget_service.py lines 26-63): requires the parent dashboard to
exist under the caller's scope and then persists the widget. Unlike the
private variant, this method performs no check of the dashboard's
schema version. -/
def PublicWidgetService.create (s : PubState) (p : PublicWidgetCreateParams)
    (newId : String) : Except Err (PubState × PublicWidget) :=
  match get_public_dashboard s p.dashboard_id p.domain_id p.workspace_id with
  | none => .error .notFound
  | some _ =>
    let w := newPublicWidget p newId
    .ok ({ s with widgets := s.widgets ++ [w] }, w)

/-- Parameters of `PrivateDataTableService.add`. -/
structure PrivateDataTableAddParams where
  widget_id : String
  name : Option String := none
  source_type : String
  options : Val
  user_id : String
  domain_id : String
deriving DecidableEq, Repr

/-- Parameters of `PrivateDataTableService.transform`. -/
structure PrivateDataTableTransformParams where
  widget_id : String
  name : Option String := none
  operator : String
  options : Val
  user_id : String
  domain_id : String
deriving DecidableEq, Repr

/-- Modelled from the spec:
`PrivateDataTableManager.create_private_data_table` builds the persisted
record from the params dict after the service injected the data_type
(manager code absent from the sources). -/
def newPrivateDataTableAdded (p : PrivateDataTableAddParams) (dt : DataType)
    (newId : String) : PrivateDataTable :=
  { data_table_id := newId
    data_type := dt
    source_type := some p.source_type
    operator := none
    options := p.options
    widget_id := p.widget_id
    domain_id := p.domain_id
    user_id := p.user_id }

/-- Modelled from the spec: the persisted record built by
`PrivateDataTableManager.create_private_data_table` for a transform
request (manager code absent from the sources). -/
def newPrivateDataTableTransformed (p : PrivateDataTableTransformParams)
    (dt : DataType) (newId : String) : PrivateDataTable :=
  { data_table_id := newId
    data_type := dt
    source_type := none
    operator := some p.operator
    options := p.options
    widget_id := p.widget_id
    domain_id := p.domain_id
    user_id := p.user_id }

/-- Embedding of `PrivateDataTableService.add`
(private_data_table_service.py lines 28-67): requires the parent widget
to exist under the caller's domain and user id, sets
`data_type = "ADDED"` on the params dict, and persists the record. -/
def PrivateDataTableService.add (s : PrivState) (p : PrivateDataTableAddParams)
    (newId : String) : Except Err (PrivState × PrivateDataTable) :=
  match get_private_widget s p.widget_id p.domain_id p.user_id with
  | none => .error .notFound
  | some _ =>
    let t := newPrivateDataTableAdded p .ADDED newId
    .ok ({ s with dataTables := s.dataTables ++ [t] }, t)

/-- Embedding of `PrivateDataTableService.transform`
(private_data_table_service.py lines 69-108): requires the parent widget
to exist under the caller's domain and user id, sets
`data_type = "TRANSFORMED"` on the params dict, and persists the
record. -/
def PrivateDataTableService.transform (s : PrivState)
    (p : PrivateDataTableTransformParams) (newId : String) :
    Except Err (PrivState × PrivateDataTable) :=
  match get_private_widget s p.widget_id p.domain_id p.user_id with
  | none => .error .notFound
  | some _ =>
    let t := newPrivateDataTableTransformed p .TRANSFORMED newId
    .ok ({ s with dataTables := s.dataTables ++ [t] }, t)

/-- Parameters of `PublicDataTableService.add`. -/
structure PublicDataTableAddParams where
  widget_id : String
  name : Option String := none
  source_type : String
  options : Val
  workspace_id : String
  domain_id : String
deriving DecidableEq, Repr

/-- Parameters of `PublicDataTableService.transform`. -/
structure PublicDataTableTransformParams where
  widget_id : String
  name : Option String := none
  operator : String
  options : Val
  workspace_id : String
  domain_id : String
deriving DecidableEq, Repr

/-- Modelled from the spec:
`PublicDataTableManager.create_public_data_table` builds the persisted
record from the params dict after the service injected the data_type
(manager code absent from the sources). -/
def newPublicDataTableAdded (p : PublicDataTableAddParams) (dt : DataType)
    (newId : String) : PublicDataTable :=
  { data_table_id := newId
    data_type := dt
    source_type := some p.source_type
    operator := none
    options := p.options
    widget_id := p.widget_id
    domain_id := p.domain_id
    workspace_id := p.workspace_id }

/-- Modelled from the spec: the persisted record built by
`PublicDataTableManager.create_public_data_table` for a transform
request (manager code absent from the sources). -/
def newPublicDataTableTransformed (p : PublicDataTableTransformParams)
    (dt : DataType) (newId : String) : PublicDataTable :=
  { data_table_id := newId
    data_type := dt
    source_type := none
    operator := some p.operator
    options := p.options
    widget_id := p.widget_id
    domain_id := p.domain_id
    workspace_id := p.workspace_id }

/-- Embedding of `PublicDataTableService.add`
(public_data_table_service.py lines 26-67): requires the parent widget
to exist under the caller's scope and then persists the record. The
source sets `params_dict["data_type"] = "TRANSFORMED"` on this add path
(unlike the private variant, which sets ADDED). -/
def PublicDataTableService.add (s : PubState) (p : PublicDataTableAddParams)
    (newId : String) : Except Err (PubState × PublicDataTable) :=
  match get_public_widget s p.widget_id p.domain_id p.workspace_id with
  | none => .error .notFound
  | some _ =>
    let t := newPublicDataTableAdded p .TRANSFORMED newId
    .ok ({ s with dataTables := s.dataTables ++ [t] }, t)

/-- Embedding of `PublicDataTableService.transform`
(public_data_table_service.py lines 69-110): requires the parent widget
to exist under the caller's scope, sets `data_type = "TRANSFORMED"`,
and persists the record. -/
def PublicDataTableService.transform (s : PubState)
    (p : PublicDataTableTransformParams) (newId : String) :
    Except Err (PubState × PublicDataTable) :=
  match get_public_widget s p.widget_id p.domain_id p.workspace_id with
  | none => .error .notFound
  | some _ =>
    let t := newPublicDataTableTransformed p .TRANSFORMED newId
    .ok ({ s with dataTables := s.dataTables ++ [t] }, t)

/-- The version-change test as the specification words it: walk the
versioned fields in the fixed priority order layouts,
dashboard_options, dashboard_options_schema; the first field that is
present in the payload and non-empty is compared against storage, and a
version bump is signalled exactly when that field differs. -/
def specVersionChange (vo : DomainDashboard) (params : UpdateParams) : Bool :=
  match truthyGet params.layouts with
  | some v => decide (v ≠ vo.layouts)
  | none =>
    match truthyGet params.dashboard_options with
    | some v => decide (v ≠ vo.dashboard_options)
    | none =>
      match truthyGet params.dashboard_options_schema with
      | some v => decide (v ≠ vo.dashboard_options_schema)
      | none => false

/-- Every versioned field that is present in the payload equals the
stored value (absent fields compare trivially). -/
def allPresentEqual (vo : DomainDashboard) (params : UpdateParams) : Bool :=
  params.layouts.getD vo.layouts == vo.layouts &&
  params.dashboard_options.getD vo.dashboard_options == vo.dashboard_options &&
  params.dashboard_options_schema.getD vo.dashboard_options_schema == vo.dashboard_options_schema

deriving instance DecidableEq for Except

/-- Example dashboard used by the concrete evaluations below
(version 1, layouts [1], options [2], schema [3]). -/
def exDash : DomainDashboard :=
  { domain_dashboard_id := "domain-dash-1"
    name := "test"
    version := 1
    layouts := [1]
    dashboard_options := [2]
    dashboard_options_schema := [3]
    settings := []
    labels := []
    tags := []
    scope := .DOMAIN
    user_id := none
    domain_id := "domain-12345" }

/-- Store holding just the example dashboard and no version records. -/
def c1S : State := { dashboards := [exDash], versions := [] }

/-- Update payload whose layouts key is present, non-empty and unchanged
while its dashboard_options key is present and changed. -/
def c1P : UpdateParams :=
  { domain_dashboard_id := "domain-dash-1"
    domain_id := "domain-12345"
    layouts := some [1]
    dashboard_options := some [9] }

/-- Update payload that changes the layouts field. -/
def c1wP : UpdateParams :=
  { domain_dashboard_id := "domain-dash-1"
    domain_id := "domain-12345"
    layouts := some [7] }

/-- The store after updating `c1S` with `c1wP`: version bumped to 2 and
one snapshot of the pre-update values stored under number 2. -/
def c1wS' : State :=
  { dashboards := [{ exDash with version := 2, layouts := [7] }]
    versions := [{ domain_dashboard_id := "domain-dash-1"
                   version := 2
                   layouts := [1]
                   dashboard_options := [2]
                   dashboard_options_schema := [3]
                   domain_id := "domain-12345" }] }

/-- The dashboard record returned by updating `c1S` with `c1wP`. -/
def c1wVo : DomainDashboard := { exDash with version := 2, layouts := [7] }

/-- Example dashboard at version 2 whose layouts were changed after the
version-1 snapshot was taken. -/
def c2Dash : DomainDashboard := { exDash with version := 2, layouts := [7] }

/-- The stored version-1 snapshot, whose layouts differ from the current
dashboard value. -/
def c2Rec : DomainDashboardVersion :=
  { domain_dashboard_id := "domain-dash-1"
    version := 1
    layouts := [1]
    dashboard_options := [2]
    dashboard_options_schema := [3]
    domain_id := "domain-12345" }

/-- Store for the revert example. -/
def c2S : State := { dashboards := [c2Dash], versions := [c2Rec] }

/-- The revert request params (id and domain only, as in the source). -/
def c2P : UpdateParams :=
  { domain_dashboard_id := "domain-dash-1", domain_id := "domain-12345" }

/-- The store after reverting `c2S` to version 1: fields restored, but
the version counter and the version store are untouched. -/
def c2S' : State :=
  { dashboards := [{ c2Dash with layouts := [1] }], versions := [c2Rec] }

/-- The dashboard record returned by the revert example. -/
def c2Vo : DomainDashboard := { c2Dash with layouts := [1] }

/-- Update payload whose only versioned key holds the stored value. -/
def c3P : UpdateParams :=
  { domain_dashboard_id := "domain-dash-1"
    domain_id := "domain-12345"
    layouts := some [1] }

/-- Example dashboard at version 3 for the delete-version example. -/
def c4Dash : DomainDashboard := { exDash with version := 3 }

/-- A strictly older stored version snapshot (number 1). -/
def c4Rec1 : DomainDashboardVersion :=
  { domain_dashboard_id := "domain-dash-1"
    version := 1
    layouts := [4]
    dashboard_options := [5]
    dashboard_options_schema := [6]
    domain_id := "domain-12345" }

/-- A strictly older stored version snapshot (number 2). -/
def c4Rec2 : DomainDashboardVersion :=
  { domain_dashboard_id := "domain-dash-1"
    version := 2
    layouts := [1]
    dashboard_options := [2]
    dashboard_options_schema := [3]
    domain_id := "domain-12345" }

/-- Store for the delete-version example. -/
def c4S : State := { dashboards := [c4Dash], versions := [c4Rec1, c4Rec2] }

/-- A private dashboard on a post-legacy schema version. -/
def c5PrivDash : PrivateDashboard :=
  { dashboard_id := "private-dash-1"
    version := "2.0"
    domain_id := "domain-12345"
    user_id := "cloudforet@gmail.com" }

/-- Private store holding just `c5PrivDash`. -/
def c5PrivS : PrivState := { dashboards := [c5PrivDash], widgets := [], dataTables := [] }

/-- Private widget creation request under `c5PrivDash`. -/
def c5PrivP : PrivateWidgetCreateParams :=
  { dashboard_id := "private-dash-1"
    name := "w"
    options := []
    tags := []
    user_id := "cloudforet@gmail.com"
    domain_id := "domain-12345" }

/-- A public dashboard on the legacy "1.0" schema version. -/
def c5PubDash : PublicDashboard :=
  { dashboard_id := "public-dash-1"
    version := "1.0"
    domain_id := "domain-12345"
    workspace_id := "workspace-1" }

/-- Public store holding just `c5PubDash`. -/
def c5PubS : PubState := { dashboards := [c5PubDash], widgets := [], dataTables := [] }

/-- Public widget creation request under the legacy dashboard. -/
def c5PubP : PublicWidgetCreateParams :=
  { dashboard_id := "public-dash-1"
    name := "w"
    options := []
    tags := []
    workspace_id := "workspace-1"
    domain_id := "domain-12345" }

/-- Example private widget. -/
def exPrivWidget : PrivateWidget :=
  { widget_id := "private-widget-1"
    name := "w"
    dashboard_id := "private-dash-1"
    data_table_id := none
    options := []
    tags := []
    domain_id := "domain-12345"
    user_id := "cloudforet@gmail.com" }

/-- Private store holding just `exPrivWidget`. -/
def c6PrivS : PrivState := { dashboards := [], widgets := [exPrivWidget], dataTables := [] }

/-- Example public widget. -/
def exPubWidget : PublicWidget :=
  { widget_id := "public-widget-1"
    name := "w"
    dashboard_id := "public-dash-1"
    data_table_id := none
    options := []
    tags := []
    domain_id := "domain-12345"
    workspace_id := "workspace-1" }

/-- Public store holding just `exPubWidget`. -/
def c6PubS : PubState := { dashboards := [], widgets := [exPubWidget], dataTables := [] }

/-- Private data-table add request. -/
def c6P1 : PrivateDataTableAddParams :=
  { widget_id := "private-widget-1"
    source_type := "COST"
    options := [1]
    user_id := "cloudforet@gmail.com"
    domain_id := "domain-12345" }

/-- Private data-table transform request. -/
def c6P2 : PrivateDataTableTransformParams :=
  { widget_id := "private-widget-1"
    operator := "JOIN"
    options := [1]
    user_id := "cloudforet@gmail.com"
    domain_id := "domain-12345" }

/-- Public data-table add request. -/
def c6P3 : PublicDataTableAddParams :=
  { widget_id := "public-widget-1"
    source_type := "COST"
    options := [1]
    workspace_id := "workspace-1"
    domain_id := "domain-12345" }

/-- Public data-table transform request. -/
def c6P4 : PublicDataTableTransformParams :=
  { widget_id := "public-widget-1"
    operator := "JOIN"
    options := [1]
    workspace_id := "workspace-1"
    domain_id := "domain-12345" }

/-- The record persisted by the private add example. -/
def c6T1 : PrivateDataTable := newPrivateDataTableAdded c6P1 .ADDED "private-dt-1"

/-- The result of the private add example. -/
def c6R1 : PrivState × PrivateDataTable :=
  ({ c6PrivS with dataTables := c6PrivS.dataTables ++ [c6T1] }, c6T1)

/-- The record persisted by the private transform example. -/
def c6T2 : PrivateDataTable := newPrivateDataTableTransformed c6P2 .TRANSFORMED "private-dt-2"

/-- The result of the private transform example. -/
def c6R2 : PrivState × PrivateDataTable :=
  ({ c6PrivS with dataTables := c6PrivS.dataTables ++ [c6T2] }, c6T2)

/-- The record persisted by the public add example. -/
def c6T3 : PublicDataTable := newPublicDataTableAdded c6P3 .TRANSFORMED "public-dt-1"

/-- The result of the public add example. -/
def c6R3 : PubState × PublicDataTable :=
  ({ c6PubS with dataTables := c6PubS.dataTables ++ [c6T3] }, c6T3)

/-- The record persisted by the public transform example. -/
def c6T4 : PublicDataTable := newPublicDataTableTransformed c6P4 .TRANSFORMED "public-dt-2"

/-- The result of the public transform example. -/
def c6R4 : PubState × PublicDataTable :=
  ({ c6PubS with dataTables := c6PubS.dataTables ++ [c6T4] }, c6T4)

/-- Dashboard creation request supplying a matching user id. -/
def c7P : CreateParams :=
  { name := "test"
    domain_id := "domain-12345"
    user_id := some "cloudforet@gmail.com" }

/-- Empty store for the creation examples. -/
def c7S : State := { dashboards := [], versions := [] }

/-- Dashboard creation request of the specification's example: only one
of the three versioned fields is supplied. -/
def c8P : CreateParams :=
  { name := "test"
    domain_id := "domain-12345"
    dashboard_options := some [2] }

/-- The dashboard persisted by the `c8P` creation. -/
def c8Vo : DomainDashboard := newDashboardFromParams c8P .DOMAIN "domain-dash-9"

/-- A private data table belonging to `exPrivWidget`. -/
def c9DT : PrivateDataTable :=
  { data_table_id := "private-dt-1"
    data_type := .ADDED
    source_type := some "COST"
    operator := none
    options := [1]
    widget_id := "private-widget-1"
    domain_id := "domain-12345"
    user_id := "cloudforet@gmail.com" }

/-- Private store holding `exPrivWidget` and its data table `c9DT`. -/
def c9S : PrivState := { dashboards := [], widgets := [exPrivWidget], dataTables := [c9DT] }

/-- Widget update request binding `c9DT` to its own parent widget. -/
def c9P : PrivateWidgetUpdateParams :=
  { widget_id := "private-widget-1"
    data_table_id := some "private-dt-1"
    user_id := "cloudforet@gmail.com"
    domain_id := "domain-12345" }

theorem check_version_change_eq_spec (vo : DomainDashboard) (p : UpdateParams) :
    check_version_change vo p = specVersionChange vo p := by
  unfold check_version_change specVersionChange
  rcases hl : p.layouts with _ | l <;>
    rcases ho : p.dashboard_options with _ | o <;>
      rcases hc : p.dashboard_options_schema with _ | c <;>
        simp [truthyGet, hl, ho, hc, Val.truthy] <;>
          split_ifs <;>
            simp_all [ne_comm, eq_comm]

theorem specVersionChange_false_of_allPresentEqual (vo : DomainDashboard)
    (p : UpdateParams) (h : allPresentEqual vo p = true) :
    specVersionChange vo p = false := by
  unfold allPresentEqual at h
  unfold specVersionChange
  rcases hl : p.layouts with _ | l <;>
    rcases ho : p.dashboard_options with _ | o <;>
      rcases hc : p.dashboard_options_schema with _ | c <;>
        simp_all [truthyGet, Val.truthy] <;>
          split_ifs <;>
            simp_all

theorem check_version_change_false_of_allPresentEqual (vo : DomainDashboard)
    (p : UpdateParams) (h : allPresentEqual vo p = true) :
    check_version_change vo p = false := by
  rw [check_version_change_eq_spec]
  exact specVersionChange_false_of_allPresentEqual vo p h

theorem setDashboard_versions (s : State) (vo : DomainDashboard) :
    (s.setDashboard vo).versions = s.versions := rfl

theorem update_by_vo_fst_versions (s : State) (p : UpdateParams) (vo : DomainDashboard) :
    (update_domain_dashboard_by_vo s p vo).1.versions = s.versions := rfl

theorem update_by_vo_snd (s : State) (p : UpdateParams) (vo : DomainDashboard) :
    (update_domain_dashboard_by_vo s p vo).2 = applyParams p vo := rfl

theorem applyParams_version (p : UpdateParams) (vo : DomainDashboard) :
    (applyParams p vo).version = vo.version := rfl

theorem update_ok_of_get (s : State) (p : UpdateParams) (vo : DomainDashboard)
    (hget : get_domain_dashboard s p.domain_dashboard_id p.domain_id = some vo) :
    DomainDashboardService.update s p =
      (if check_version_change vo p then
        .ok (update_domain_dashboard_by_vo
          (create_version_by_domain_dashboard_vo
            (State.setDashboard s (increase_version vo)) (increase_version vo))
          p (increase_version vo))
      else
        .ok (update_domain_dashboard_by_vo s p vo)) := by
  unfold DomainDashboardService.update
  rw [hget]

theorem delete_version_of_get (s : State) (id : String) (ver : Nat)
    (domain_id : String) (vo : DomainDashboard)
    (hget : get_domain_dashboard s id domain_id = some vo) :
    DomainDashboardService.deleteVersion s id ver domain_id =
      (if vo.version = ver then .error (.latestVersion ver)
       else version_mgr_delete_version s id ver domain_id) := by
  unfold DomainDashboardService.deleteVersion
  rw [hget]

theorem get_private_widget_id (s : PrivState) (i d u : String) (w : PrivateWidget)
    (h : get_private_widget s i d u = some w) : w.widget_id = i := by
  unfold get_private_widget at h
  have hp := List.find?_some h
  simp only [Bool.and_eq_true, beq_iff_eq] at hp
  exact hp.1.1

/-- Claim C1: false as stated. At this concrete input the payload's
dashboard_options key is present and differs from the stored value
([9] vs [2]), yet because the payload's layouts key is also present,
non-empty and unchanged, the update leaves the version counter at 1 and
creates no version record - contradicting the claim that any present
differing versioned field bumps the version by exactly 1. -/
theorem update_changed_field_no_bump_example :
    c1P.dashboard_options = some [9] ∧
    exDash.dashboard_options = [2] ∧
    DomainDashboardService.update c1S c1P =
      .ok ({ dashboards := [{ exDash with dashboard_options := [9] }], versions := [] },
        { exDash with dashboard_options := [9] }) ∧
    ({ exDash with dashboard_options := ([9] : Val) }).version = exDash.version ∧
    (([] : List DomainDashboardVersion)).length = c1S.versions.length := by
  decide

/-- Claim C1 (amended): an update bumps the version EXACTLY when the
first present-and-non-empty versioned field in the priority order
layouts, dashboard_options, dashboard_options_schema differs from
storage (specVersionChange): in that case the version increases by
exactly 1 and exactly one version record is appended holding the
pre-update values of the versioned fields; in every other case -
including a differing present field hidden behind an unchanged
non-empty higher-priority field, a present-but-empty differing field,
and the case where every present versioned field equals the stored
value - the version counter and the version store are unchanged. -/
theorem update_version_bump_characterization
    (s : State) (p : UpdateParams) (vo : DomainDashboard)
    (s' : State) (vo' : DomainDashboard)
    (hget : get_domain_dashboard s p.domain_dashboard_id p.domain_id = some vo)
    (hupd : DomainDashboardService.update s p = .ok (s', vo')) :
    (allPresentEqual vo p = true →
       vo'.version = vo.version ∧ s'.versions = s.versions) ∧
    (specVersionChange vo p = false →
       vo'.version = vo.version ∧ s'.versions = s.versions) ∧
    (specVersionChange vo p = true →
       vo'.version = vo.version + 1 ∧
       s'.versions = s.versions ++
         [{ domain_dashboard_id := vo.domain_dashboard_id
            version := vo.version + 1
            layouts := vo.layouts
            dashboard_options := vo.dashboard_options
            dashboard_options_schema := vo.dashboard_options_schema
            domain_id := vo.domain_id }]) := by
  rw [update_ok_of_get s p vo hget] at hupd
  by_cases hcv : check_version_change vo p = true
  · rw [if_pos hcv] at hupd
    simp only [update_domain_dashboard_by_vo, Except.ok.injEq, Prod.mk.injEq] at hupd
    obtain ⟨hs, hv⟩ := hupd
    subst hs
    subst hv
    refine ⟨?_, ?_, fun _ => ⟨rfl, rfl⟩⟩
    · intro hall
      have hfalse := check_version_change_false_of_allPresentEqual vo p hall
      rw [hfalse] at hcv
      exact Bool.noConfusion hcv
    · intro hspec
      rw [← check_version_change_eq_spec] at hspec
      rw [hspec] at hcv
      exact Bool.noConfusion hcv
  · rw [if_neg hcv] at hupd
    simp only [update_domain_dashboard_by_vo, Except.ok.injEq, Prod.mk.injEq] at hupd
    obtain ⟨hs, hv⟩ := hupd
    subst hs
    subst hv
    refine ⟨fun _ => ⟨rfl, rfl⟩, fun _ => ⟨rfl, rfl⟩, ?_⟩
    intro hspec
    rw [← check_version_change_eq_spec] at hspec
    exact absurd hspec hcv

/-- Witness for the amended C1 theorem at two concrete inputs: updating
the example dashboard with a changed layouts field bumps the version
from 1 to 2 and appends exactly one snapshot of the pre-update values,
while updating it with an unchanged non-empty layouts field next to a
changed dashboard_options field (where specVersionChange is false)
leaves the version counter and the version store unchanged. -/
theorem update_version_bump_characterization_witness :
    (c1wVo.version = exDash.version + 1 ∧
     c1wS'.versions = c1S.versions ++
       [{ domain_dashboard_id := exDash.domain_dashboard_id
          version := exDash.version + 1
          layouts := exDash.layouts
          dashboard_options := exDash.dashboard_options
          dashboard_options_schema := exDash.dashboard_options_schema
          domain_id := exDash.domain_id }]) ∧
    (({ exDash with dashboard_options := ([9] : Val) }).version = exDash.version ∧
     ({ dashboards := [{ exDash with dashboard_options := [9] }],
        versions := [] } : State).versions = c1S.versions) :=
  ⟨(update_version_bump_characterization c1S c1wP exDash c1wS' c1wVo
      (by decide) (by decide)).2.2 (by decide),
   (update_version_bump_characterization c1S c1P exDash
      { dashboards := [{ exDash with dashboard_options := [9] }], versions := [] }
      { exDash with dashboard_options := [9] }
      (by decide) (by decide)).2.1 (by decide)⟩

/-- Claim C2: false as stated. At this concrete input the stored
version-1 snapshot differs from the dashboard's current layouts, yet
reverting to version 1 returns the dashboard with its fields restored
while the version counter stays at 2 and the version store still holds
exactly the one old record - no increment, no new snapshot. -/
theorem revert_version_claim_counterexample :
    c2Rec.layouts ≠ c2Dash.layouts ∧
    DomainDashboardService.revertVersion c2S c2P 1 = .ok (c2S', c2Vo) ∧
    c2Vo.layouts = c2Rec.layouts ∧
    c2Vo.version = c2Dash.version ∧
    c2S'.versions = c2S.versions := by
  decide

/-- Claim C2 (amended): revert_version sets the dashboard's layouts,
dashboard options and options schema to the target snapshot's values by
calling the manager's field update directly; it does not increment the
version counter and does not create a new version record, because it
bypasses the service update path's version-change handling. -/
theorem revert_version_no_bump
    (s : State) (p : UpdateParams) (n : Nat) (vo : DomainDashboard)
    (ver : DomainDashboardVersion) (s' : State) (vo' : DomainDashboard)
    (hget : get_domain_dashboard s p.domain_dashboard_id p.domain_id = some vo)
    (hver : version_mgr_get_version s p.domain_dashboard_id n p.domain_id = some ver)
    (hrev : DomainDashboardService.revertVersion s p n = .ok (s', vo')) :
    vo'.layouts = ver.layouts ∧
    vo'.dashboard_options = ver.dashboard_options ∧
    vo'.dashboard_options_schema = ver.dashboard_options_schema ∧
    vo'.version = vo.version ∧
    s'.versions = s.versions := by
  unfold DomainDashboardService.revertVersion at hrev
  rw [hget, hver] at hrev
  simp only [update_domain_dashboard_by_vo, Except.ok.injEq, Prod.mk.injEq] at hrev
  obtain ⟨hs, hv⟩ := hrev
  subst hs
  subst hv
  exact ⟨rfl, rfl, rfl, rfl, rfl⟩

/-- Witness for the amended C2 theorem at the concrete revert example. -/
theorem revert_version_no_bump_witness :
    c2Vo.layouts = c2Rec.layouts ∧
    c2Vo.dashboard_options = c2Rec.dashboard_options ∧
    c2Vo.dashboard_options_schema = c2Rec.dashboard_options_schema ∧
    c2Vo.version = c2Dash.version ∧
    c2S'.versions = c2S.versions :=
  revert_version_no_bump c2S c2P 1 c2Dash c2Rec c2S' c2Vo
    (by decide) (by decide) (by decide)

/-- Claim C3: the update path's version-change detection equals the
priority-ordered first-non-empty-field comparison (layouts, then
dashboard_options, then dashboard_options_schema), and when every
present versioned field equals the stored value no bump is signalled. -/
theorem check_version_change_priority_order (vo : DomainDashboard) (p : UpdateParams) :
    check_version_change vo p = specVersionChange vo p ∧
    (allPresentEqual vo p = true → check_version_change vo p = false) :=
  ⟨check_version_change_eq_spec vo p,
   check_version_change_false_of_allPresentEqual vo p⟩

/-- Witness for the C3 theorem at a concrete input whose only present
versioned field holds the stored value. -/
theorem check_version_change_priority_order_witness :
    check_version_change exDash c3P = specVersionChange exDash c3P ∧
    check_version_change exDash c3P = false :=
  ⟨(check_version_change_priority_order exDash c3P).1,
   (check_version_change_priority_order exDash c3P).2 (by decide)⟩

/-- Claim C4: deleting the version equal to the dashboard's current
version counter fails with the latest-version error; deleting a
strictly older version that exists in the store succeeds and removes
exactly the matching record. -/
theorem delete_version_latest_guard
    (s : State) (id : String) (ver : Nat) (domain_id : String) (vo : DomainDashboard)
    (hget : get_domain_dashboard s id domain_id = some vo) :
    (ver = vo.version →
       DomainDashboardService.deleteVersion s id ver domain_id =
         .error (.latestVersion ver)) ∧
    (ver < vo.version →
       s.versions.any (versionMatches id ver domain_id) = true →
       DomainDashboardService.deleteVersion s id ver domain_id =
         .ok { s with versions :=
           s.versions.filter (fun v => !(versionMatches id ver domain_id v)) }) := by
  rw [delete_version_of_get s id ver domain_id vo hget]
  constructor
  · intro hv
    subst hv
    rw [if_pos rfl]
  · intro hlt hany
    have hne : ¬vo.version = ver := by omega
    rw [if_neg hne]
    unfold version_mgr_delete_version
    rw [if_pos hany]

/-- Witness for the C4 theorem: on a version-3 dashboard with stored
snapshots 1 and 2, deleting version 3 fails with the latest-version
error and deleting version 1 removes exactly the version-1 record. -/
theorem delete_version_latest_guard_witness :
    DomainDashboardService.deleteVersion c4S "domain-dash-1" 3 "domain-12345" =
      .error (.latestVersion 3) ∧
    DomainDashboardService.deleteVersion c4S "domain-dash-1" 1 "domain-12345" =
      .ok { c4S with versions :=
        c4S.versions.filter (fun v => !(versionMatches "domain-dash-1" 1 "domain-12345" v)) } :=
  ⟨(delete_version_latest_guard c4S "domain-dash-1" 3 "domain-12345" c4Dash
      (by decide)).1 (by decide),
   (delete_version_latest_guard c4S "domain-dash-1" 1 "domain-12345" c4Dash
      (by decide)).2 (by decide) (by decide)⟩

theorem private_widget_create_of_get (s : PrivState) (p : PrivateWidgetCreateParams)
    (newId : String) (dvo : PrivateDashboard)
    (hget : get_private_dashboard s p.dashboard_id p.domain_id p.user_id = some dvo) :
    PrivateWidgetService.create s p newId =
      (if dvo.version = "1.0" then .error (.notSupportedVersion dvo.version)
       else .ok ({ s with widgets := s.widgets ++ [newPrivateWidget p newId] },
         newPrivateWidget p newId)) := by
  unfold PrivateWidgetService.create
  rw [hget]

theorem public_widget_create_of_get (qs : PubState) (q : PublicWidgetCreateParams)
    (qnewId : String) (qdvo : PublicDashboard)
    (hqget : get_public_dashboard qs q.dashboard_id q.domain_id q.workspace_id = some qdvo) :
    PublicWidgetService.create qs q qnewId =
      .ok ({ qs with widgets := qs.widgets ++ [newPublicWidget q qnewId] },
        newPublicWidget q qnewId) := by
  unfold PublicWidgetService.create
  rw [hqget]

/-- Claim C5: false as stated. The public dashboard of this example has
schema version "1.0", yet the public widget create call succeeds and
persists the widget - only the private variant performs the "1.0"
rejection. -/
theorem public_widget_create_legacy_version_example :
    get_public_dashboard c5PubS c5PubP.dashboard_id c5PubP.domain_id c5PubP.workspace_id =
      some c5PubDash ∧
    c5PubDash.version = "1.0" ∧
    PublicWidgetService.create c5PubS c5PubP "public-widget-9" =
      .ok ({ c5PubS with widgets := c5PubS.widgets ++ [newPublicWidget c5PubP "public-widget-9"] },
        newPublicWidget c5PubP "public-widget-9") := by
  decide

/-- Claim C5 (amended): when the parent dashboard exists in scope, the
PRIVATE widget create call fails with the unsupported-version error
exactly when the dashboard's schema version is "1.0" and otherwise
persists the widget; the PUBLIC widget create call performs no schema
version check and persists the widget under any version. -/
theorem widget_create_version_guard
    (s : PrivState) (p : PrivateWidgetCreateParams) (newId : String)
    (dvo : PrivateDashboard)
    (hget : get_private_dashboard s p.dashboard_id p.domain_id p.user_id = some dvo)
    (qs : PubState) (q : PublicWidgetCreateParams) (qnewId : String)
    (qdvo : PublicDashboard)
    (hqget : get_public_dashboard qs q.dashboard_id q.domain_id q.workspace_id = some qdvo) :
    (dvo.version = "1.0" →
       PrivateWidgetService.create s p newId = .error (.notSupportedVersion "1.0")) ∧
    (dvo.version ≠ "1.0" →
       PrivateWidgetService.create s p newId =
         .ok ({ s with widgets := s.widgets ++ [newPrivateWidget p newId] },
           newPrivateWidget p newId)) ∧
    PublicWidgetService.create qs q qnewId =
      .ok ({ qs with widgets := qs.widgets ++ [newPublicWidget q qnewId] },
        newPublicWidget q qnewId) := by
  refine ⟨?_, ?_, public_widget_create_of_get qs q qnewId qdvo hqget⟩
  · intro hv
    rw [private_widget_create_of_get s p newId dvo hget, if_pos hv, hv]
  · intro hv
    rw [private_widget_create_of_get s p newId dvo hget, if_neg hv]

/-- Witness for the amended C5 theorem: the private create succeeds under
a "2.0" dashboard and the public create succeeds under a "1.0"
dashboard. -/
theorem widget_create_version_guard_witness :
    PrivateWidgetService.create c5PrivS c5PrivP "private-widget-9" =
      .ok ({ c5PrivS with widgets := c5PrivS.widgets ++ [newPrivateWidget c5PrivP "private-widget-9"] },
        newPrivateWidget c5PrivP "private-widget-9") ∧
    PublicWidgetService.create c5PubS c5PubP "public-widget-8" =
      .ok ({ c5PubS with widgets := c5PubS.widgets ++ [newPublicWidget c5PubP "public-widget-8"] },
        newPublicWidget c5PubP "public-widget-8") :=
  ⟨(widget_create_version_guard c5PrivS c5PrivP "private-widget-9" c5PrivDash (by decide)
      c5PubS c5PubP "public-widget-8" c5PubDash (by decide)).2.1 (by decide),
   (widget_create_version_guard c5PrivS c5PrivP "private-widget-9" c5PrivDash (by decide)
      c5PubS c5PubP "public-widget-8" c5PubDash (by decide)).2.2⟩

/-- Claim C6: false as stated. The public data-table add call persists
the record with data_type TRANSFORMED, not ADDED. -/
theorem public_add_data_type_example :
    PublicDataTableService.add c6PubS c6P3 "public-dt-1" = .ok c6R3 ∧
    c6R3.2.data_type = .TRANSFORMED ∧
    c6R3.2.data_type ≠ .ADDED := by
  decide

/-- Claim C6 (amended): every successful private add persists ADDED and
every successful private or public transform persists TRANSFORMED, but
the public add also persists TRANSFORMED; each successful call implies
its parent widget exists under the caller's ownership scope. -/
theorem data_table_add_transform_types
    (s1 : PrivState) (p1 : PrivateDataTableAddParams) (id1 : String)
    (r1 : PrivState × PrivateDataTable)
    (h1 : PrivateDataTableService.add s1 p1 id1 = .ok r1)
    (s2 : PrivState) (p2 : PrivateDataTableTransformParams) (id2 : String)
    (r2 : PrivState × PrivateDataTable)
    (h2 : PrivateDataTableService.transform s2 p2 id2 = .ok r2)
    (s3 : PubState) (p3 : PublicDataTableAddParams) (id3 : String)
    (r3 : PubState × PublicDataTable)
    (h3 : PublicDataTableService.add s3 p3 id3 = .ok r3)
    (s4 : PubState) (p4 : PublicDataTableTransformParams) (id4 : String)
    (r4 : PubState × PublicDataTable)
    (h4 : PublicDataTableService.transform s4 p4 id4 = .ok r4) :
    (r1.2.data_type = .ADDED ∧
       (get_private_widget s1 p1.widget_id p1.domain_id p1.user_id).isSome = true) ∧
    (r2.2.data_type = .TRANSFORMED ∧
       (get_private_widget s2 p2.widget_id p2.domain_id p2.user_id).isSome = true) ∧
    (r3.2.data_type = .TRANSFORMED ∧
       (get_public_widget s3 p3.widget_id p3.domain_id p3.workspace_id).isSome = true) ∧
    (r4.2.data_type = .TRANSFORMED ∧
       (get_public_widget s4 p4.widget_id p4.domain_id p4.workspace_id).isSome = true) := by
  refine ⟨?_, ?_, ?_, ?_⟩
  · unfold PrivateDataTableService.add at h1
    cases hw : get_private_widget s1 p1.widget_id p1.domain_id p1.user_id with
    | none =>
      rw [hw] at h1
      exact Except.noConfusion h1
    | some w =>
      rw [hw] at h1
      simp only [Except.ok.injEq] at h1
      exact ⟨by rw [← h1]; rfl, rfl⟩
  · unfold PrivateDataTableService.transform at h2
    cases hw : get_private_widget s2 p2.widget_id p2.domain_id p2.user_id with
    | none =>
      rw [hw] at h2
      exact Except.noConfusion h2
    | some w =>
      rw [hw] at h2
      simp only [Except.ok.injEq] at h2
      exact ⟨by rw [← h2]; rfl, rfl⟩
  · unfold PublicDataTableService.add at h3
    cases hw : get_public_widget s3 p3.widget_id p3.domain_id p3.workspace_id with
    | none =>
      rw [hw] at h3
      exact Except.noConfusion h3
    | some w =>
      rw [hw] at h3
      simp only [Except.ok.injEq] at h3
      exact ⟨by rw [← h3]; rfl, rfl⟩
  · unfold PublicDataTableService.transform at h4
    cases hw : get_public_widget s4 p4.widget_id p4.domain_id p4.workspace_id with
    | none =>
      rw [hw] at h4
      exact Except.noConfusion h4
    | some w =>
      rw [hw] at h4
      simp only [Except.ok.injEq] at h4
      exact ⟨by rw [← h4]; rfl, rfl⟩

/-- Witness for the amended C6 theorem at concrete add and transform
requests against stores holding the parent widgets. -/
theorem data_table_add_transform_types_witness :
    (c6R1.2.data_type = .ADDED ∧
       (get_private_widget c6PrivS c6P1.widget_id c6P1.domain_id c6P1.user_id).isSome = true) ∧
    (c6R2.2.data_type = .TRANSFORMED ∧
       (get_private_widget c6PrivS c6P2.widget_id c6P2.domain_id c6P2.user_id).isSome = true) ∧
    (c6R3.2.data_type = .TRANSFORMED ∧
       (get_public_widget c6PubS c6P3.widget_id c6P3.domain_id c6P3.workspace_id).isSome = true) ∧
    (c6R4.2.data_type = .TRANSFORMED ∧
       (get_public_widget c6PubS c6P4.widget_id c6P4.domain_id c6P4.workspace_id).isSome = true) :=
  data_table_add_transform_types
    c6PrivS c6P1 "private-dt-1" c6R1 (by decide)
    c6PrivS c6P2 "private-dt-2" c6R2 (by decide)
    c6PubS c6P3 "public-dt-1" c6R3 (by decide)
    c6PubS c6P4 "public-dt-2" c6R4 (by decide)

theorem create_mismatch (s : State) (p : CreateParams) (tnx newId : String)
    (uid : String) (hu : p.user_id = some uid) (hne : uid ≠ tnx) :
    DomainDashboardService.create s p tnx newId = .error (.invalidUserId uid tnx) := by
  unfold DomainDashboardService.create
  rw [hu]
  simp [hne]

theorem create_user_scope (s : State) (p : CreateParams) (tnx newId : String)
    (hu : p.user_id = some tnx) :
    DomainDashboardService.create s p tnx newId =
      (if p.layouts.isSome && p.dashboard_options.isSome &&
          p.dashboard_options_schema.isSome then
        .ok (create_version_by_domain_dashboard_vo
          { s with dashboards := s.dashboards ++ [newDashboardFromParams p .USER newId] }
          (newDashboardFromParams p .USER newId),
          newDashboardFromParams p .USER newId)
      else
        .ok ({ s with dashboards := s.dashboards ++ [newDashboardFromParams p .USER newId] },
          newDashboardFromParams p .USER newId)) := by
  unfold DomainDashboardService.create
  rw [hu]
  simp

theorem create_domain_scope (s : State) (p : CreateParams) (tnx newId : String)
    (hu : p.user_id = none) :
    DomainDashboardService.create s p tnx newId =
      (if p.layouts.isSome && p.dashboard_options.isSome &&
          p.dashboard_options_schema.isSome then
        .ok (create_version_by_domain_dashboard_vo
          { s with dashboards := s.dashboards ++ [newDashboardFromParams p .DOMAIN newId] }
          (newDashboardFromParams p .DOMAIN newId),
          newDashboardFromParams p .DOMAIN newId)
      else
        .ok ({ s with dashboards := s.dashboards ++ [newDashboardFromParams p .DOMAIN newId] },
          newDashboardFromParams p .DOMAIN newId)) := by
  unfold DomainDashboardService.create
  rw [hu]

/-- Claim C7: supplying a user id different from the transaction's user
id fails with the invalid-user-id error (and the error return persists
nothing); supplying the matching user id creates the dashboard with
scope USER; supplying no user id creates it with scope DOMAIN. -/
theorem dashboard_create_scope_rules (s : State) (p : CreateParams) (tnx newId : String) :
    (∀ uid, p.user_id = some uid → uid ≠ tnx →
       DomainDashboardService.create s p tnx newId = .error (.invalidUserId uid tnx)) ∧
    (p.user_id = some tnx →
       (DomainDashboardService.create s p tnx newId).toOption.map (fun r => r.2.scope) =
         some .USER) ∧
    (p.user_id = none →
       (DomainDashboardService.create s p tnx newId).toOption.map (fun r => r.2.scope) =
         some .DOMAIN) := by
  refine ⟨?_, ?_, ?_⟩
  · intro uid hu hne
    exact create_mismatch s p tnx newId uid hu hne
  · intro hu
    rw [create_user_scope s p tnx newId hu]
    by_cases hall : (p.layouts.isSome && p.dashboard_options.isSome &&
        p.dashboard_options_schema.isSome) = true
    · rw [if_pos hall]
      rfl
    · rw [if_neg hall]
      rfl
  · intro hu
    rw [create_domain_scope s p tnx newId hu]
    by_cases hall : (p.layouts.isSome && p.dashboard_options.isSome &&
        p.dashboard_options_schema.isSome) = true
    · rw [if_pos hall]
      rfl
    · rw [if_neg hall]
      rfl

/-- Witness for the C7 theorem: the matching-user-id creation yields
scope USER and the no-user-id creation yields scope DOMAIN. -/
theorem dashboard_create_scope_rules_witness :
    (DomainDashboardService.create c7S c7P "cloudforet@gmail.com" "domain-dash-9").toOption.map
      (fun r => r.2.scope) = some .USER ∧
    (DomainDashboardService.create c7S c8P "cloudforet@gmail.com" "domain-dash-9").toOption.map
      (fun r => r.2.scope) = some .DOMAIN :=
  ⟨(dashboard_create_scope_rules c7S c7P "cloudforet@gmail.com" "domain-dash-9").2.1 (by decide),
   (dashboard_create_scope_rules c7S c8P "cloudforet@gmail.com" "domain-dash-9").2.2 (by decide)⟩

/-- Claim C8: a successful creation always yields a dashboard with
version 1; the version store gains exactly one snapshot (of the new
record, under number 1) when all three versioned keys are present in
the payload, and is unchanged when any of them is missing. -/
theorem dashboard_create_snapshot_iff
    (s : State) (p : CreateParams) (tnx newId : String)
    (s' : State) (vo : DomainDashboard)
    (hok : DomainDashboardService.create s p tnx newId = .ok (s', vo)) :
    vo.version = 1 ∧
    ((p.layouts.isSome && p.dashboard_options.isSome &&
        p.dashboard_options_schema.isSome) = true →
       s'.versions = s.versions ++ [snapshotOf vo] ∧ (snapshotOf vo).version = 1) ∧
    ((p.layouts.isSome && p.dashboard_options.isSome &&
        p.dashboard_options_schema.isSome) = false →
       s'.versions = s.versions) := by
  have hshape : ∃ scope, DomainDashboardService.create s p tnx newId =
      (if p.layouts.isSome && p.dashboard_options.isSome &&
          p.dashboard_options_schema.isSome then
        .ok (create_version_by_domain_dashboard_vo
          { s with dashboards := s.dashboards ++ [newDashboardFromParams p scope newId] }
          (newDashboardFromParams p scope newId),
          newDashboardFromParams p scope newId)
      else
        .ok ({ s with dashboards := s.dashboards ++ [newDashboardFromParams p scope newId] },
          newDashboardFromParams p scope newId)) := by
    rcases hu : p.user_id with _ | uid
    · exact ⟨.DOMAIN, create_domain_scope s p tnx newId hu⟩
    · by_cases hne : uid = tnx
      · subst hne
        exact ⟨.USER, create_user_scope s p uid newId hu⟩
      · rw [create_mismatch s p tnx newId uid hu hne] at hok
        exact Except.noConfusion hok
  obtain ⟨scope, hshape⟩ := hshape
  rw [hshape] at hok
  by_cases hall : (p.layouts.isSome && p.dashboard_options.isSome &&
      p.dashboard_options_schema.isSome) = true
  · rw [if_pos hall] at hok
    simp only [Except.ok.injEq, Prod.mk.injEq] at hok
    obtain ⟨hs, hv⟩ := hok
    subst hs
    subst hv
    refine ⟨rfl, fun _ => ⟨rfl, rfl⟩, fun hfalse => ?_⟩
    rw [hall] at hfalse
    exact Bool.noConfusion hfalse
  · rw [if_neg hall] at hok
    simp only [Except.ok.injEq, Prod.mk.injEq] at hok
    obtain ⟨hs, hv⟩ := hok
    subst hs
    subst hv
    exact ⟨rfl, fun htrue => absurd htrue hall, fun _ => rfl⟩

/-- Witness for the C8 theorem at the specification's example payload
(name, domain id and dashboard_options only): version 1 and no version
record. -/
theorem dashboard_create_snapshot_iff_witness :
    c8Vo.version = 1 ∧
    (⟨[c8Vo], []⟩ : State).versions = c7S.versions := by
  have h := dashboard_create_snapshot_iff c7S c8P "cloudforet@gmail.com" "domain-dash-9"
    ⟨[c8Vo], []⟩ c8Vo (by decide)
  exact ⟨h.1, h.2.2 (by decide)⟩

theorem private_widget_update_of_get (s : PrivState) (p : PrivateWidgetUpdateParams)
    (w : PrivateWidget) (dtid : String) (dt : PrivateDataTable)
    (hw : get_private_widget s p.widget_id p.domain_id p.user_id = some w)
    (hd : p.data_table_id = some dtid)
    (hdt : get_private_data_table s dtid p.domain_id p.user_id = some dt) :
    PrivateWidgetService.update s p =
      (if dt.widget_id ≠ p.widget_id then .error (.invalidParameter "data_table_id")
       else .ok (s.setWidget (applyWidgetParams p w), applyWidgetParams p w)) := by
  unfold PrivateWidgetService.update
  rw [hw, hd]
  simp [hdt]

/-- Claim C9: a widget update that supplies a data table id fails with
the invalid-parameter error when that data table's parent widget id
differs from the widget being updated (the error return leaves the
store untouched); when it matches, the update is applied and the
updated widget's bound data table belongs to that same widget. -/
theorem widget_update_data_table_ownership
    (s : PrivState) (p : PrivateWidgetUpdateParams) (w : PrivateWidget)
    (dtid : String) (dt : PrivateDataTable)
    (hw : get_private_widget s p.widget_id p.domain_id p.user_id = some w)
    (hd : p.data_table_id = some dtid)
    (hdt : get_private_data_table s dtid p.domain_id p.user_id = some dt) :
    (dt.widget_id ≠ p.widget_id →
       PrivateWidgetService.update s p = .error (.invalidParameter "data_table_id")) ∧
    (dt.widget_id = p.widget_id →
       PrivateWidgetService.update s p =
         .ok (s.setWidget (applyWidgetParams p w), applyWidgetParams p w) ∧
       (applyWidgetParams p w).data_table_id = some dtid ∧
       (applyWidgetParams p w).widget_id = p.widget_id ∧
       dt.widget_id = (applyWidgetParams p w).widget_id) := by
  have hwid : w.widget_id = p.widget_id :=
    get_private_widget_id s p.widget_id p.domain_id p.user_id w hw
  rw [private_widget_update_of_get s p w dtid dt hw hd hdt]
  constructor
  · intro hne
    rw [if_pos hne]
  · intro heq
    refine ⟨?_, ?_, ?_, ?_⟩
    · rw [if_neg (not_not_intro heq)]
    · simp [applyWidgetParams, hd]
    · simp [applyWidgetParams, hwid]
    · simp [applyWidgetParams, hwid, heq]

/-- Witness for the C9 theorem: binding a data table that belongs to the
widget succeeds and the resulting widget's binding points at its own
data table. -/
theorem widget_update_data_table_ownership_witness :
    PrivateWidgetService.update c9S c9P =
      .ok (c9S.setWidget (applyWidgetParams c9P exPrivWidget),
        applyWidgetParams c9P exPrivWidget) ∧
    (applyWidgetParams c9P exPrivWidget).data_table_id = some "private-dt-1" ∧
    (applyWidgetParams c9P exPrivWidget).widget_id = c9P.widget_id ∧
    c9DT.widget_id = (applyWidgetParams c9P exPrivWidget).widget_id :=
  (widget_update_data_table_ownership c9S c9P exPrivWidget "private-dt-1" c9DT
    (by decide) (by decide) (by decide)).2 (by decide)

/-- Claim C10: when an update triggers a version bump, the counter is
incremented before the snapshot is taken, so the single appended
version record pairs the incremented (new current) version number with
the pre-update versioned field values; consequently, if every stored
record for this dashboard carried a number at most the old current
version, every record afterwards carries a number at most the new
current version. -/
theorem update_snapshot_version_pairing
    (s : State) (p : UpdateParams) (vo : DomainDashboard)
    (s' : State) (vo' : DomainDashboard)
    (hget : get_domain_dashboard s p.domain_dashboard_id p.domain_id = some vo)
    (hbump : check_version_change vo p = true)
    (hupd : DomainDashboardService.update s p = .ok (s', vo')) :
    s'.versions = s.versions ++
      [{ domain_dashboard_id := vo.domain_dashboard_id
         version := vo.version + 1
         layouts := vo.layouts
         dashboard_options := vo.dashboard_options
         dashboard_options_schema := vo.dashboard_options_schema
         domain_id := vo.domain_id }] ∧
    vo'.version = vo.version + 1 ∧
    ((∀ rec ∈ s.versions, rec.domain_dashboard_id = vo.domain_dashboard_id →
        rec.version ≤ vo.version) →
      ∀ rec ∈ s'.versions, rec.domain_dashboard_id = vo.domain_dashboard_id →
        rec.version ≤ vo'.version) := by
  rw [update_ok_of_get s p vo hget, if_pos hbump] at hupd
  simp only [update_domain_dashboard_by_vo, Except.ok.injEq, Prod.mk.injEq] at hupd
  obtain ⟨hs, hv⟩ := hupd
  subst hs
  subst hv
  refine ⟨rfl, rfl, ?_⟩
  intro hpre rec hmem hid
  have hmem' : rec ∈ s.versions ++ [snapshotOf (increase_version vo)] := hmem
  rcases List.mem_append.mp hmem' with hold | hnew
  · exact le_trans (hpre rec hold hid) (Nat.le_succ _)
  · have hrec : rec = snapshotOf (increase_version vo) := List.mem_singleton.mp hnew
    subst hrec
    exact le_of_eq rfl

/-- Witness for the C10 theorem at the concrete bumping update: the
appended record carries number 2 with the pre-update field values, and
the record-number bound is preserved. -/
theorem update_snapshot_version_pairing_witness :
    c1wS'.versions = c1S.versions ++
      [{ domain_dashboard_id := exDash.domain_dashboard_id
         version := exDash.version + 1
         layouts := exDash.layouts
         dashboard_options := exDash.dashboard_options
         dashboard_options_schema := exDash.dashboard_options_schema
         domain_id := exDash.domain_id }] ∧
    c1wVo.version = exDash.version + 1 ∧
    ((∀ rec ∈ c1S.versions, rec.domain_dashboard_id = exDash.domain_dashboard_id →
        rec.version ≤ exDash.version) →
      ∀ rec ∈ c1wS'.versions, rec.domain_dashboard_id = exDash.domain_dashboard_id →
        rec.version ≤ c1wVo.version) :=
  update_snapshot_version_pairing c1S c1wP exDash c1wS' c1wVo
    (by decide) (by decide) (by decide)
